import Mathlib

set_option maxHeartbeats 1000000

/-!
Shallow embedding of the iCalendar generation core of `src/main.py`
(KKGStundenplan2Google).  Python `datetime` dates are modelled by their
proleptic-Gregorian ordinal (an `Int`, as returned by `date.toordinal()`,
with ordinal 1 = 0001-01-01, a Monday); the calendar fields `year`,
`month`, `day` are recovered with the standard civil-from-days algorithm,
which is what CPython's `datetime` implements.  Python `str(n)` on
integers is modelled by `pyStr` / `pyStrInt`, `"{:02d}".format` by `pad2`,
`str.split` by `splitChars` and `str.join` by `pyJoin`.
-/

/-- Decimal digits of a natural number (first argument: structural fuel,
always called with fuel `> n`, which is plenty since `n / 10 < n`). -/
def pyStrAux : Nat → Nat → List Char
  | 0, _ => []
  | fuel + 1, n =>
    if n < 10 then [Char.ofNat (48 + n)]
    else pyStrAux fuel (n / 10) ++ [Char.ofNat (48 + n % 10)]

/-- The decimal digit string of a natural number. -/
def pyDigits (n : Nat) : List Char :=
  pyStrAux (n + 1) n

/-- Python `str(n)` for a natural number. -/
def pyStr (n : Nat) : String :=
  String.mk (pyDigits n)

/-- Python `str(i)` for an integer. -/
def pyStrInt (i : Int) : String :=
  if i < 0 then "-" ++ pyStr (-i).toNat else pyStr i.toNat

/-- Python `"{:02d}".format(n)` for a nonnegative value. -/
def pad2 (n : Nat) : String :=
  if n < 10 then "0" ++ pyStr n else pyStr n

/-- Python `s.split(sep)` (single-character separator) on the character
list of a string: `"" → [""]`, `"a/b" → ["a", "b"]`, `"/" → ["", ""]`. -/
def splitChars (sep : Char) : List Char → List (List Char)
  | [] => [[]]
  | c :: cs =>
    if c = sep then [] :: splitChars sep cs
    else
      match splitChars sep cs with
      | [] => [[c]]
      | g :: gs => (c :: g) :: gs

/-- Python `sep.join(parts)`. -/
def pyJoin (sep : String) : List String → String
  | [] => ""
  | [x] => x
  | x :: xs => x ++ sep ++ pyJoin sep xs

/-- Python `s.split(sep)` for strings. -/
def pySplit (sep : Char) (s : String) : List String :=
  (splitChars sep s.data).map String.mk

/-- Civil-from-days: the `(year, month, day)` triple of the proleptic
Gregorian date with the given ordinal (ordinal 1 = 0001-01-01), computed
exactly as CPython's `datetime.date` does (Howard Hinnant's algorithm,
shifted so that the era count starts at 0000-03-01 = shifted day 0). -/
def fromOrdinal (n : Int) : Nat × Nat × Nat :=
  let z := (n + 305).toNat
  let era := z / 146097
  let doe := z % 146097
  let yoe := (doe - doe / 1460 + doe / 36524 - doe / 146096) / 365
  let y := yoe + era * 400
  let doy := doe - (365 * yoe + yoe / 4 - yoe / 100)
  let mp := (5 * doy + 2) / 153
  let d := doy - (153 * mp + 2) / 5 + 1
  let m := if mp < 10 then mp + 3 else mp - 9
  (if m ≤ 2 then y + 1 else y, m, d)

/-- Python `fecha.year`. -/
def yearOf (n : Int) : Nat := (fromOrdinal n).1

/-- Python `fecha.month`. -/
def monthOf (n : Int) : Nat := (fromOrdinal n).2.1

/-- Python `fecha.day`. -/
def dayOf (n : Int) : Nat := (fromOrdinal n).2.2

/-- Python `fecha.weekday()`: 0 = Monday .. 6 = Sunday.  Ordinal 1
(0001-01-01) is a Monday. -/
def weekdayOf (n : Int) : Int := (n - 1) % 7

/-- `DIAS_SEMANA` from `src/main.py` line 25. -/
def DIAS_SEMANA : List String :=
  ["", "Lunes", "Martes", "Miércoles", "Jueves", "Viernes"]

/-- `DIAS_RRULE` from `src/main.py` line 26. -/
def DIAS_RRULE : List String :=
  ["", "MO", "TU", "WE", "TH", "FR"]

/-- `DIAS_CURSO_ESCOLAR` from `src/main.py` line 27. -/
def DIAS_CURSO_ESCOLAR : Int := 180

/-- `TIMEZONE` from `src/main.py` line 28. -/
def TIMEZONE : String := "Europe/Berlin"

/-- `PRODID_PREFIX` from `src/main.py` line 29. -/
def PRODID_PREFIX : String := "-//HorarioEscolar//Clase"

/-- One entry of the `HORARIOS` table: the `"inicio"` and `"fin"` keys of
the Python dict (renamed `ini` / `fin` here). -/
structure Slot where
  ini : String
  fin : String
  deriving DecidableEq

/-- `HORARIOS` from `src/main.py` lines 32-45. -/
def HORARIOS : List Slot :=
  [⟨"08:10", "08:55"⟩, ⟨"08:55", "09:40"⟩, ⟨"10:00", "10:45"⟩,
   ⟨"10:45", "11:30"⟩, ⟨"11:45", "12:30"⟩, ⟨"12:30", "13:15"⟩,
   ⟨"13:30", "14:15"⟩, ⟨"14:15", "15:00"⟩, ⟨"15:00", "15:45"⟩,
   ⟨"15:45", "16:30"⟩, ⟨"16:30", "17:15"⟩, ⟨"17:15", "18:00"⟩]

/-- `ASIGNATURAS` from `src/main.py` lines 48-81, as an association list
in source order. -/
def ASIGNATURAS : List (String × String) :=
  [("m", "Matemáticas"), ("d", "Alemán"), ("e", "Inglés"), ("g", "Historia"),
   ("f", "Francés"), ("l", "Latín"), ("ku", "Arte"), ("mu", "Música"),
   ("sw", "Deportes"), ("sm", "Deportes"), ("geo", "Geografía"),
   ("ntbio", "Biología"), ("ntinf", "Informática"), ("ntinf7", "Informática"),
   ("ntph", "Física"), ("ev", "Religión Evangélica"), ("k", "Religión Católica"),
   ("eth", "Ética"), ("qhu", "Hora de estudio"), ("qhu6", "Hora de estudio 6"),
   ("mint", "MINT"), ("fint", "Intensivo Francés"), ("intf", "Intensivo Francés"),
   ("lint", "Intensivo Latín"), ("intl", "Intensivo Latín"),
   ("intm", "Intensivo Matemáticas"), ("DaZ-plus7", "Alemán Plus 7"),
   ("ffmm-gta", "Actividad después de clases"), ("ffmd-gta", "Actividad después de clases"),
   ("ffme-gta", "Actividad después de clases"), ("ffme", "Actividad después de clases"),
   ("mittag", "Almuerzo")]

/-- One event record of the input JSON, with the documented field types
(`dia`/`periodo` integers, `asignatura`/`aula` strings); a missing key is
`none`. -/
structure Evento where
  dia : Option Int
  periodo : Option Int
  asignatura : Option String
  aula : Option String
  deriving DecidableEq

/-- The class-schedule record handed to `generar_icalendar`: the `"clase"`
key (possibly missing) and the `"eventos"` list. -/
structure DatosClase where
  clase : Option String
  eventos : List Evento
  deriving DecidableEq

/-- The value of `datetime.now()`: the current date as an ordinal plus the
clock fields used by `obtener_timestamp`. -/
structure Ahora where
  date : Int
  hour : Nat
  minute : Nat
  second : Nat
  deriving DecidableEq

/-- `validar_evento` from `src/main.py` lines 160-186 on records with the
documented field types: all four keys present, `1 <= dia <= 5` and
`1 <= periodo <= len(HORARIOS)`. -/
def validar_evento (e : Evento) : Bool :=
  match e.dia, e.periodo, e.asignatura, e.aula with
  | some d, some p, some _, some _ =>
    decide (1 ≤ d) && decide (d ≤ 5) &&
      (decide (1 ≤ p) && decide (p ≤ (HORARIOS.length : Int)))
  | _, _, _, _ => false

/-- Python `int(s)` on a string of decimal digits. -/
def pyIntNat (l : List Char) : Nat :=
  l.foldl (fun acc c => acc * 10 + (c.toNat - 48)) 0

/-- Python `map(int, hora.split(':'))` destructured into two values; every
call site passes a well-formed `"HH:MM"` string from `HORARIOS`. -/
def parseHora (hora : String) : Nat × Nat :=
  match pySplit ':' hora with
  | [h, m] => (pyIntNat h.data, pyIntNat m.data)
  | _ => (0, 0)

/-- `formatear_fecha` from `src/main.py` lines 123-141:
`f"{fecha.year}{fecha.month:02d}{fecha.day:02d}T{horas:02d}{minutos:02d}00"`.
Note that the year is rendered without any zero padding. -/
def formatear_fecha (fecha : Int) (hora : String) : String :=
  let hm := parseHora hora
  pyStr (yearOf fecha) ++ pad2 (monthOf fecha) ++ pad2 (dayOf fecha) ++
    "T" ++ pad2 hm.1 ++ pad2 hm.2 ++ "00"

/-- `obtener_timestamp` from `src/main.py` lines 143-158, applied to an
explicit `now` value. -/
def obtener_timestamp (ahora : Ahora) : String :=
  pyStr (yearOf ahora.date) ++ pad2 (monthOf ahora.date) ++ pad2 (dayOf ahora.date) ++
    "T" ++ pad2 ahora.hour ++ pad2 ahora.minute ++ pad2 ahora.second ++ "Z"

/-- One part of a slash-composite subject abbreviation: the body of the
loop in `src/main.py` lines 299-303 (`if parte in ASIGNATURAS` then the
mapped name else the part itself). -/
def resolvePart (parte : String) : String :=
  match ASIGNATURAS.find? (fun kv => kv.1 == parte) with
  | some kv => kv.2
  | none => parte

/-- The subject-name resolution of `src/main.py` lines 296-305: split on
`'/'`, resolve each part, rejoin with `'/'`. -/
def nombreAsignatura (abrev : String) : String :=
  pyJoin "/" ((pySplit '/' abrev).map resolvePart)

/-- `dias_hasta_lunes` from `src/main.py` lines 227-229. -/
def diasHastaLunes (hoy : Int) : Int :=
  let k := (7 - weekdayOf hoy) % 7
  if k = 0 then 7 else k

/-- `fecha_base` from `src/main.py` line 230: the next Monday strictly
after `hoy`. -/
def fechaBase (hoy : Int) : Int :=
  hoy + diasHastaLunes hoy

/-- `fecha_fin_curso` from `src/main.py` lines 233-234. -/
def fechaFinCurso (ahora : Ahora) : String :=
  let ff := ahora.date + DIAS_CURSO_ESCOLAR
  pyStr (yearOf ff) ++ pad2 (monthOf ff) ++ pad2 (dayOf ff) ++ "T235959Z"

/-- The `uid` f-string of `src/main.py` line 309 (grouped to the right). -/
def uidOf (clase : String) (dtstamp : String) (e : Evento) : String :=
  "clase" ++ (clase ++ ("-d" ++ (pyStrInt (e.dia.getD 0) ++ ("p" ++
    (pyStrInt (e.periodo.getD 0) ++ ("-" ++ (dtstamp ++ "@kkg-stundenplan.local")))))))

/-- The header lines of `src/main.py` lines 240-247. -/
def headerLines (clase : String) : List String :=
  ["BEGIN:VCALENDAR",
   "VERSION:2.0",
   "PRODID:" ++ (PRODID_PREFIX ++ (" " ++ (clase ++ "//ES"))),
   "CALSCALE:GREGORIAN",
   "METHOD:PUBLISH",
   "X-WR-CALNAME:Clase " ++ clase]

/-- The fixed VTIMEZONE block of `src/main.py` lines 250-269. -/
def timezoneLines : List String :=
  ["BEGIN:VTIMEZONE",
   "TZID:" ++ TIMEZONE,
   "X-LIC-LOCATION:" ++ TIMEZONE,
   "BEGIN:DAYLIGHT",
   "TZOFFSETFROM:+0100",
   "TZOFFSETTO:+0200",
   "TZNAME:CEST",
   "DTSTART:19700329T020000",
   "RRULE:FREQ=YEARLY;BYMONTH=3;BYDAY=-1SU",
   "END:DAYLIGHT",
   "BEGIN:STANDARD",
   "TZOFFSETFROM:+0200",
   "TZOFFSETTO:+0100",
   "TZNAME:CET",
   "DTSTART:19701025T030000",
   "RRULE:FREQ=YEARLY;BYMONTH=10;BYDAY=-1SU",
   "END:STANDARD",
   "END:VTIMEZONE"]

/-- The VEVENT block emitted for one (already validated) event:
`src/main.py` lines 279-323.  The `getD` defaults are never used on an
event that passed `validar_evento`. -/
def eventoLines (clase : String) (fecha_base : Int) (fecha_fin_curso dtstamp : String)
    (e : Evento) : List String :=
  let dia_semana : Int := e.dia.getD 0
  let periodo : Int := e.periodo.getD 0
  let aula := e.aula.getD ""
  let fecha_evento := fecha_base + (dia_semana - 1)
  let horario := HORARIOS.getD (periodo.toNat - 1) ⟨"", ""⟩
  let dtstart := formatear_fecha fecha_evento horario.ini
  let dtend := formatear_fecha fecha_evento horario.fin
  let nombre_asignatura := nombreAsignatura (e.asignatura.getD "")
  ["BEGIN:VEVENT",
   "DTSTART;TZID=" ++ TIMEZONE ++ ":" ++ dtstart,
   "DTEND;TZID=" ++ TIMEZONE ++ ":" ++ dtend,
   "DTSTAMP:" ++ dtstamp,
   "UID:" ++ uidOf clase dtstamp e,
   "RRULE:FREQ=WEEKLY;WKST=MO;BYDAY=" ++
     (DIAS_RRULE.getD dia_semana.toNat "" ++ (";UNTIL=" ++ fecha_fin_curso)),
   "SUMMARY:" ++ nombre_asignatura,
   "LOCATION:" ++ aula,
   "DESCRIPTION:" ++ (DIAS_SEMANA.getD dia_semana.toNat "" ++ (" - Clase " ++ clase)),
   "END:VEVENT"]

/-- The class identifier `datos_clase.get("clase", "Unknown")` of
`src/main.py` line 218. -/
def claseDe (datos : DatosClase) : String :=
  datos.clase.getD "Unknown"

/-- The full `lines` list built by `generar_icalendar` (`src/main.py`
lines 240-327): header, timezone block, one VEVENT block per event that
passes validation (in input order), then `END:VCALENDAR`. -/
def icalLines (datos : DatosClase) (ahora : Ahora) : List String :=
  headerLines (claseDe datos) ++ timezoneLines ++
    (datos.eventos.filter validar_evento).flatMap
      (eventoLines (claseDe datos) (fechaBase ahora.date) (fechaFinCurso ahora)
        (obtener_timestamp ahora)) ++
    ["END:VCALENDAR"]

/-- Python `"\r\n".join(lines)`. -/
def crlfJoin (lines : List String) : String :=
  pyJoin "\r\n" lines

/-- `src/main.py` line 337: `"\r\n".join(lines) + "\r\n"`. -/
def renderIcal (lines : List String) : String :=
  crlfJoin lines ++ "\r\n"

/-- `generar_icalendar` from `src/main.py` lines 189-339 on inputs of the
documented shape, with `datetime.now()` passed explicitly.  Returns `none`
for a missing record, an empty event list, or when no event passes
validation; otherwise the CRLF-joined document. -/
def generar_icalendar (datos_clase : Option DatosClase) (ahora : Ahora) : Option String :=
  match datos_clase with
  | none => none
  | some datos =>
    if datos.eventos.isEmpty then none
    else if (datos.eventos.filter validar_evento).isEmpty then none
    else some (renderIcal (icalLines datos ahora))

/-!
Dynamic (untyped) model of `validar_evento`, used for the claims that
range over arbitrary dictionaries: a field value is an integer or a
string, and a Python comparison `int <= str` raises `TypeError`.
-/

/-- A Python value stored in an event dict: an int or a str. -/
inductive PyVal where
  | int (n : Int)
  | str (s : String)
  deriving DecidableEq

/-- A Python exception relevant here. -/
inductive PyErr where
  | typeError
  deriving DecidableEq

/-- A raw event dict: each of the four keys is present with an arbitrary
value, or absent. -/
structure EventoRaw where
  dia : Option PyVal
  periodo : Option PyVal
  asignatura : Option PyVal
  aula : Option PyVal
  deriving DecidableEq

/-- The Python chained comparison `lo <= v <= hi`: raises `TypeError`
when `v` is a string, otherwise compares. -/
def pyRangeCheck (lo : Int) (v : PyVal) (hi : Int) : Except PyErr Bool :=
  match v with
  | .int n => .ok (decide (lo ≤ n) && decide (n ≤ hi))
  | .str _ => .error .typeError

/-- `validar_evento` from `src/main.py` lines 160-186 on a raw dict:
missing keys are reported (in source order) before any range check, the
`dia` range check runs before the `periodo` one, and a non-numeric value
propagates a `TypeError` out of the function. -/
def validar_evento_raw (e : EventoRaw) : Except PyErr Bool :=
  match e.dia, e.periodo, e.asignatura, e.aula with
  | some d, some p, some _, some _ => do
    let okDia ← pyRangeCheck 1 d 5
    if !okDia then
      pure false
    else do
      let okPeriodo ← pyRangeCheck 1 p (HORARIOS.length : Int)
      if !okPeriodo then pure false else pure true
  | _, _, _, _ => .ok false

/-- The embedding of a typed event into a raw dict. -/
def eventoToRaw (e : Evento) : EventoRaw :=
  ⟨e.dia.map .int, e.periodo.map .int, e.asignatura.map .str, e.aula.map .str⟩

/-- `l` begins with `p`, compared on character data (Python
`l.startswith(p)`). -/
def lineStarts (p l : String) : Bool :=
  p.data.isPrefixOf l.data

/-- Join a list of character groups with a separator character; the
list-level counterpart of `pyJoin`. -/
def joinChars (sep : Char) : List (List Char) → List Char
  | [] => []
  | [g] => g
  | g :: gs => g ++ sep :: joinChars sep gs

/-! ### Helper lemmas about decimal rendering -/

theorem pyStrAux_fuel (f g n : Nat) (hf : n < f) (hg : n < g) :
    pyStrAux f n = pyStrAux g n := by
  induction f generalizing g n with
  | zero => omega
  | succ f ih =>
    cases g with
    | zero => omega
    | succ g =>
      simp only [pyStrAux]
      split_ifs with h
      · rfl
      · have hn : n / 10 < n := Nat.div_lt_self (by omega) (by omega)
        rw [ih g (n / 10) (by omega) (by omega)]

theorem pyDigits_lt10 (n : Nat) (h : n < 10) : pyDigits n = [Char.ofNat (48 + n)] := by
  simp [pyDigits, pyStrAux, h]

theorem pyDigits_ge10 (n : Nat) (h : 10 ≤ n) :
    pyDigits n = pyDigits (n / 10) ++ [Char.ofNat (48 + n % 10)] := by
  have hn : n / 10 < n := Nat.div_lt_self (by omega) (by omega)
  show pyStrAux (n + 1) n = _
  simp only [pyStrAux, if_neg (by omega : ¬ n < 10)]
  rw [pyStrAux_fuel n (n / 10 + 1) (n / 10) (by omega) (by omega)]
  rfl

theorem pyDigits_len1 (n : Nat) (h : n < 10) : (pyDigits n).length = 1 := by
  rw [pyDigits_lt10 n h]
  rfl

theorem pyDigits_len2 (n : Nat) (h1 : 10 ≤ n) (h2 : n < 100) : (pyDigits n).length = 2 := by
  rw [pyDigits_ge10 n h1, List.length_append, pyDigits_len1 (n / 10) (by omega)]
  rfl

theorem pyDigits_len3 (n : Nat) (h1 : 100 ≤ n) (h2 : n < 1000) : (pyDigits n).length = 3 := by
  rw [pyDigits_ge10 n (by omega), List.length_append,
    pyDigits_len2 (n / 10) (by omega) (by omega)]
  rfl

theorem pyDigits_len4 (n : Nat) (h1 : 1000 ≤ n) (h2 : n ≤ 9999) : (pyDigits n).length = 4 := by
  rw [pyDigits_ge10 n (by omega), List.length_append,
    pyDigits_len3 (n / 10) (by omega) (by omega)]
  rfl

theorem pyStr_len4 (n : Nat) (h1 : 1000 ≤ n) (h2 : n ≤ 9999) : (pyStr n).length = 4 :=
  pyDigits_len4 n h1 h2

theorem pad2_length (n : Nat) (h : n < 100) : (pad2 n).length = 2 := by
  unfold pad2
  split_ifs with h10
  · rw [String.length_append]
    show 1 + (pyDigits n).length = 2
    rw [pyDigits_len1 n h10]
  · show (pyDigits n).length = 2
    exact pyDigits_len2 n (by omega) h

theorem digitChar_inj : ∀ a : Nat, a < 10 → ∀ b : Nat, b < 10 →
    Char.ofNat (48 + a) = Char.ofNat (48 + b) → a = b := by decide

theorem pyDigits_inj13 : ∀ a : Nat, a < 13 → ∀ b : Nat, b < 13 →
    pyDigits a = pyDigits b → a = b := by decide

theorem pyStrInt_nonneg (i : Int) (h : 0 ≤ i) : pyStrInt i = pyStr i.toNat := by
  unfold pyStrInt
  rw [if_neg (by omega)]

theorem pyStrInt_digit (i : Int) (h0 : 0 ≤ i) (h9 : i < 10) :
    (pyStrInt i).data = [Char.ofNat (48 + i.toNat)] := by
  rw [pyStrInt_nonneg i h0]
  show pyDigits i.toNat = _
  exact pyDigits_lt10 _ (by omega)

/-! ### Bounds on the calendar fields produced by `fromOrdinal` -/

theorem monthOf_bounds (n : Int) : 1 ≤ monthOf n ∧ monthOf n ≤ 12 := by
  unfold monthOf fromOrdinal
  dsimp only
  split_ifs <;> omega

theorem dayOf_bounds (n : Int) : 1 ≤ dayOf n ∧ dayOf n ≤ 31 := by
  unfold dayOf fromOrdinal
  dsimp only
  omega

/-! ### Helper lemmas about line prefixes -/

theorem lineStarts_true_of (p a : String) (h : p.data.isPrefixOf a.data = true) :
    ∀ x, lineStarts p (a ++ x) = true := by
  intro x
  have hp : p.data <+: a.data := by simpa using h
  simp only [lineStarts, String.data_append]
  have : p.data <+: a.data ++ x.data := hp.trans (List.prefix_append _ _)
  simpa using this

theorem lineStarts_false_of (p a : String) (h1 : a.data.isPrefixOf p.data = false)
    (h2 : p.data.isPrefixOf a.data = false) :
    ∀ x, lineStarts p (a ++ x) = false := by
  intro x
  simp only [lineStarts, String.data_append]
  rw [Bool.eq_false_iff]
  intro hc
  have hc2 : p.data <+: a.data ++ x.data := by simpa using hc
  rcases List.prefix_or_prefix_of_prefix hc2 (List.prefix_append a.data x.data) with hh | hh
  · have : p.data.isPrefixOf a.data = true := by simpa using hh
    rw [this] at h2
    exact Bool.noConfusion h2
  · have : a.data.isPrefixOf p.data = true := by simpa using hh
    rw [this] at h1
    exact Bool.noConfusion h1

theorem append_ne_of (a x q : String) (h : a.data.isPrefixOf q.data = false) :
    (a ++ x) ≠ q := by
  intro hc
  have hd : a.data ++ x.data = q.data := by
    rw [← String.data_append, hc]
  have : a.data.isPrefixOf q.data = true := by
    have : a.data <+: q.data := by rw [← hd]; exact List.prefix_append _ _
    simpa using this
  rw [this] at h
  exact Bool.noConfusion h

theorem append_beq_false (a x q : String) (h : a.data.isPrefixOf q.data = false) :
    ((a ++ x) == q) = false :=
  beq_eq_false_iff_ne.mpr (append_ne_of a x q h)

/-! ### Helper lemmas about joining and splitting -/

theorem pyJoin_cons (sep a : String) (ls : List String) (h : ls ≠ []) :
    pyJoin sep (a :: ls) = a ++ sep ++ pyJoin sep ls := by
  cases ls with
  | nil => exact absurd rfl h
  | cons b t => rfl

theorem splitChars_ne_nil (sep : Char) (l : List Char) : splitChars sep l ≠ [] := by
  cases l with
  | nil => simp [splitChars]
  | cons c cs =>
    simp only [splitChars]
    split_ifs
    · simp
    · cases h : splitChars sep cs <;> simp

theorem joinChars_splitChars (sep : Char) (l : List Char) :
    joinChars sep (splitChars sep l) = l := by
  induction l with
  | nil => rfl
  | cons c cs ih =>
    by_cases hc : c = sep
    · have hs : splitChars sep (c :: cs) = [] :: splitChars sep cs := by
        simp [splitChars, hc]
      rw [hs]
      cases h : splitChars sep cs with
      | nil => exact absurd h (splitChars_ne_nil sep cs)
      | cons g gs =>
        rw [h] at ih
        show [] ++ sep :: joinChars sep (g :: gs) = c :: cs
        rw [List.nil_append, ih, hc]
    · cases h : splitChars sep cs with
      | nil => exact absurd h (splitChars_ne_nil sep cs)
      | cons g gs =>
        have hs : splitChars sep (c :: cs) = (c :: g) :: gs := by
          simp [splitChars, hc, h]
        rw [hs]
        rw [h] at ih
        cases gs with
        | nil =>
          show c :: g = c :: cs
          have hg : g = cs := ih
          rw [hg]
        | cons g2 t =>
          show (c :: g) ++ sep :: joinChars sep (g2 :: t) = c :: cs
          rw [List.cons_append]
          rw [show g ++ sep :: joinChars sep (g2 :: t) = cs from ih]

theorem pyJoin_map_mk (sep : Char) (gs : List (List Char)) :
    pyJoin (String.mk [sep]) (gs.map String.mk) = String.mk (joinChars sep gs) := by
  induction gs with
  | nil => rfl
  | cons g t ih =>
    cases t with
    | nil => rfl
    | cons g2 t2 =>
      show String.mk g ++ String.mk [sep] ++ pyJoin (String.mk [sep]) ((g2 :: t2).map String.mk)
          = String.mk (joinChars sep (g :: g2 :: t2))
      rw [ih]
      apply String.ext
      show (g ++ [sep]) ++ joinChars sep (g2 :: t2) = joinChars sep (g :: g2 :: t2)
      rw [show joinChars sep (g :: g2 :: t2) = g ++ sep :: joinChars sep (g2 :: t2) from rfl]
      rw [List.append_assoc]
      rfl

theorem pyJoin_pySplit (s : String) : pyJoin "/" (pySplit '/' s) = s := by
  have h := pyJoin_map_mk '/' (splitChars '/' s.data)
  show pyJoin "/" ((splitChars '/' s.data).map String.mk) = s
  rw [show ("/" : String) = String.mk ['/'] from rfl, h, joinChars_splitChars]

/-! ### Helper lemmas about the CRLF rendering -/

theorem renderIcal_foldr (ls : List String) (h : ls ≠ []) :
    renderIcal ls = (ls.map (fun l => l ++ "\r\n")).foldr (fun a b => a ++ b) "" := by
  induction ls with
  | nil => exact absurd rfl h
  | cons a t ih =>
    cases t with
    | nil =>
      show crlfJoin [a] ++ "\r\n" = (a ++ "\r\n") ++ ""
      rw [String.append_empty]
      rfl
    | cons b t2 =>
      have hne : (b :: t2 : List String) ≠ [] := by simp
      calc renderIcal (a :: b :: t2)
          = (a ++ "\r\n" ++ crlfJoin (b :: t2)) ++ "\r\n" := rfl
        _ = (a ++ "\r\n") ++ (crlfJoin (b :: t2) ++ "\r\n") :=
            String.append_assoc _ _ _
        _ = (a ++ "\r\n") ++ renderIcal (b :: t2) := rfl
        _ = (a ++ "\r\n") ++ ((b :: t2).map (fun l => l ++ "\r\n")).foldr (fun a b => a ++ b) "" := by
            rw [ih hne]
        _ = ((a :: b :: t2).map (fun l => l ++ "\r\n")).foldr (fun a b => a ++ b) "" := rfl

theorem renderIcal_head (a : String) (ls : List String) (h : ls ≠ []) :
    ∃ t, renderIcal (a :: ls) = a ++ t := by
  cases ls with
  | nil => exact absurd rfl h
  | cons b t2 =>
    refine ⟨"\r\n" ++ (crlfJoin (b :: t2) ++ "\r\n"), ?_⟩
    show (a ++ "\r\n" ++ crlfJoin (b :: t2)) ++ "\r\n" = _
    rw [String.append_assoc, String.append_assoc]

theorem renderIcal_last (front : List String) (z : String) :
    ∃ u, renderIcal (front ++ [z]) = u ++ (z ++ "\r\n") := by
  induction front with
  | nil =>
    refine ⟨"", ?_⟩
    show crlfJoin [z] ++ "\r\n" = "" ++ (z ++ "\r\n")
    rw [String.empty_append]
    rfl
  | cons a t ih =>
    obtain ⟨u, hu⟩ := ih
    refine ⟨a ++ "\r\n" ++ u, ?_⟩
    have hne : t ++ [z] ≠ ([] : List String) := by simp
    show crlfJoin (a :: (t ++ [z])) ++ "\r\n" = _
    rw [show crlfJoin (a :: (t ++ [z])) = a ++ "\r\n" ++ crlfJoin (t ++ [z]) from
      pyJoin_cons "\r\n" a (t ++ [z]) hne]
    rw [String.append_assoc (a ++ "\r\n") (crlfJoin (t ++ [z])) "\r\n"]
    rw [show crlfJoin (t ++ [z]) ++ "\r\n" = renderIcal (t ++ [z]) from rfl, hu,
      ← String.append_assoc]

/-! ### The shape of `generar_icalendar` on a successful run -/

theorem generar_some (datos : DatosClase) (ahora : Ahora)
    (h : datos.eventos.filter validar_evento ≠ []) :
    generar_icalendar (some datos) ahora = some (renderIcal (icalLines datos ahora)) := by
  have h2 : datos.eventos ≠ [] := by
    intro he
    rw [he] at h
    exact h rfl
  show (if datos.eventos.isEmpty then none
    else if (datos.eventos.filter validar_evento).isEmpty then none
    else some (renderIcal (icalLines datos ahora))) = _
  rw [if_neg (by simp [h2]), if_neg (by simp [h])]

/-- Specialised form of `append_beq_false` with the suffix quantified. -/
theorem beq_false_of (a q : String) (h : a.data.isPrefixOf q.data = false) :
    ∀ x, ((a ++ x) == q) = false :=
  fun x => append_beq_false a x q h

/-! ### Filtering the generated lines by prefix -/

theorem flatMap_single_eq_map (l : List α) (g : α → β) :
    (l.flatMap fun x => [g x]) = l.map g := by
  induction l with
  | nil => rfl
  | cons a t ih => simp [ih]

theorem hdr_filter_uid (clase : String) :
    (headerLines clase).filter (fun l => lineStarts "UID:" l) = [] := by
  have h3 := lineStarts_false_of "UID:" "PRODID:" (by decide) (by decide)
  have h6 := lineStarts_false_of "UID:" "X-WR-CALNAME:Clase " (by decide) (by decide)
  simp [headerLines, List.filter_cons, h3, h6,
    (by decide : lineStarts "UID:" "BEGIN:VCALENDAR" = false),
    (by decide : lineStarts "UID:" "VERSION:2.0" = false),
    (by decide : lineStarts "UID:" "CALSCALE:GREGORIAN" = false),
    (by decide : lineStarts "UID:" "METHOD:PUBLISH" = false)]

theorem tz_filter_uid :
    timezoneLines.filter (fun l => lineStarts "UID:" l) = [] := by decide

theorem ev_filter_uid (clase : String) (fb : Int) (ffc ts : String) (e : Evento) :
    (eventoLines clase fb ffc ts e).filter (fun l => lineStarts "UID:" l)
      = ["UID:" ++ uidOf clase ts e] := by
  have h2 := lineStarts_false_of "UID:" ("DTSTART;TZID=" ++ TIMEZONE ++ ":") (by decide) (by decide)
  have h3 := lineStarts_false_of "UID:" ("DTEND;TZID=" ++ TIMEZONE ++ ":") (by decide) (by decide)
  have h4 := lineStarts_false_of "UID:" "DTSTAMP:" (by decide) (by decide)
  have h5 := lineStarts_true_of "UID:" "UID:" (by decide)
  have h6 := lineStarts_false_of "UID:" "RRULE:FREQ=WEEKLY;WKST=MO;BYDAY=" (by decide) (by decide)
  have h7 := lineStarts_false_of "UID:" "SUMMARY:" (by decide) (by decide)
  have h8 := lineStarts_false_of "UID:" "LOCATION:" (by decide) (by decide)
  have h9 := lineStarts_false_of "UID:" "DESCRIPTION:" (by decide) (by decide)
  simp [eventoLines, List.filter_cons, h2, h3, h4, h5, h6, h7, h8, h9,
    (by decide : lineStarts "UID:" "BEGIN:VEVENT" = false),
    (by decide : lineStarts "UID:" "END:VEVENT" = false)]

theorem ical_filter_uid (datos : DatosClase) (ahora : Ahora) :
    (icalLines datos ahora).filter (fun l => lineStarts "UID:" l)
      = (datos.eventos.filter validar_evento).map
          (fun e => "UID:" ++ uidOf (claseDe datos) (obtener_timestamp ahora) e) := by
  simp only [icalLines, List.filter_append, hdr_filter_uid, tz_filter_uid,
    List.filter_flatMap, ev_filter_uid, flatMap_single_eq_map, List.nil_append,
    List.append_nil,
    (show List.filter (fun l => lineStarts "UID:" l) ["END:VCALENDAR"] = [] from by decide)]

theorem hdr_filter_stamp (clase : String) :
    (headerLines clase).filter (fun l => lineStarts "DTSTAMP:" l) = [] := by
  have h3f := lineStarts_false_of "DTSTAMP:" "PRODID:" (by decide) (by decide)
  have h6f := lineStarts_false_of "DTSTAMP:" "X-WR-CALNAME:Clase " (by decide) (by decide)
  simp [headerLines, List.filter_cons, (by decide : lineStarts "DTSTAMP:" "BEGIN:VCALENDAR" = false),
    (by decide : lineStarts "DTSTAMP:" "VERSION:2.0" = false),
    h3f,
    (by decide : lineStarts "DTSTAMP:" "CALSCALE:GREGORIAN" = false),
    (by decide : lineStarts "DTSTAMP:" "METHOD:PUBLISH" = false),
    h6f]

theorem tz_filter_stamp :
    timezoneLines.filter (fun l => lineStarts "DTSTAMP:" l) = [] := by decide

theorem ev_filter_stamp (clase : String) (fb : Int) (ffc ts : String) (e : Evento) :
    (eventoLines clase fb ffc ts e).filter (fun l => lineStarts "DTSTAMP:" l)
      = ["DTSTAMP:" ++ ts] := by
  have l2f := lineStarts_false_of "DTSTAMP:" ("DTSTART;TZID=" ++ TIMEZONE ++ ":") (by decide) (by decide)
  have l3f := lineStarts_false_of "DTSTAMP:" ("DTEND;TZID=" ++ TIMEZONE ++ ":") (by decide) (by decide)
  have l4t := lineStarts_true_of "DTSTAMP:" "DTSTAMP:" (by decide)
  have l5f := lineStarts_false_of "DTSTAMP:" "UID:" (by decide) (by decide)
  have l6f := lineStarts_false_of "DTSTAMP:" "RRULE:FREQ=WEEKLY;WKST=MO;BYDAY=" (by decide) (by decide)
  have l7f := lineStarts_false_of "DTSTAMP:" "SUMMARY:" (by decide) (by decide)
  have l8f := lineStarts_false_of "DTSTAMP:" "LOCATION:" (by decide) (by decide)
  have l9f := lineStarts_false_of "DTSTAMP:" "DESCRIPTION:" (by decide) (by decide)
  simp [eventoLines, List.filter_cons, (by decide : lineStarts "DTSTAMP:" "BEGIN:VEVENT" = false),
    l2f,
    l3f,
    l4t,
    l5f,
    l6f,
    l7f,
    l8f,
    l9f,
    (by decide : lineStarts "DTSTAMP:" "END:VEVENT" = false)]

theorem ical_filter_stamp (datos : DatosClase) (ahora : Ahora) :
    (icalLines datos ahora).filter (fun l => lineStarts "DTSTAMP:" l)
      = (datos.eventos.filter validar_evento).map
          (fun _ => "DTSTAMP:" ++ obtener_timestamp ahora) := by
  simp only [icalLines, List.filter_append, hdr_filter_stamp, tz_filter_stamp,
    List.filter_flatMap, ev_filter_stamp, flatMap_single_eq_map, List.nil_append,
    List.append_nil,
    (show List.filter (fun l => lineStarts "DTSTAMP:" l) ["END:VCALENDAR"] = [] from by decide)]

theorem hdr_filter_rrule (clase : String) :
    (headerLines clase).filter (fun l => lineStarts "RRULE:FREQ=WEEKLY" l) = [] := by
  have h3f := lineStarts_false_of "RRULE:FREQ=WEEKLY" "PRODID:" (by decide) (by decide)
  have h6f := lineStarts_false_of "RRULE:FREQ=WEEKLY" "X-WR-CALNAME:Clase " (by decide) (by decide)
  simp [headerLines, List.filter_cons, (by decide : lineStarts "RRULE:FREQ=WEEKLY" "BEGIN:VCALENDAR" = false),
    (by decide : lineStarts "RRULE:FREQ=WEEKLY" "VERSION:2.0" = false),
    h3f,
    (by decide : lineStarts "RRULE:FREQ=WEEKLY" "CALSCALE:GREGORIAN" = false),
    (by decide : lineStarts "RRULE:FREQ=WEEKLY" "METHOD:PUBLISH" = false),
    h6f]

theorem tz_filter_rrule :
    timezoneLines.filter (fun l => lineStarts "RRULE:FREQ=WEEKLY" l) = [] := by decide

theorem ev_filter_rrule (clase : String) (fb : Int) (ffc ts : String) (e : Evento) :
    (eventoLines clase fb ffc ts e).filter (fun l => lineStarts "RRULE:FREQ=WEEKLY" l)
      = ["RRULE:FREQ=WEEKLY;WKST=MO;BYDAY=" ++
        (DIAS_RRULE.getD (e.dia.getD 0).toNat "" ++ (";UNTIL=" ++ ffc))] := by
  have l2f := lineStarts_false_of "RRULE:FREQ=WEEKLY" ("DTSTART;TZID=" ++ TIMEZONE ++ ":") (by decide) (by decide)
  have l3f := lineStarts_false_of "RRULE:FREQ=WEEKLY" ("DTEND;TZID=" ++ TIMEZONE ++ ":") (by decide) (by decide)
  have l4f := lineStarts_false_of "RRULE:FREQ=WEEKLY" "DTSTAMP:" (by decide) (by decide)
  have l5f := lineStarts_false_of "RRULE:FREQ=WEEKLY" "UID:" (by decide) (by decide)
  have l6t := lineStarts_true_of "RRULE:FREQ=WEEKLY" "RRULE:FREQ=WEEKLY;WKST=MO;BYDAY=" (by decide)
  have l7f := lineStarts_false_of "RRULE:FREQ=WEEKLY" "SUMMARY:" (by decide) (by decide)
  have l8f := lineStarts_false_of "RRULE:FREQ=WEEKLY" "LOCATION:" (by decide) (by decide)
  have l9f := lineStarts_false_of "RRULE:FREQ=WEEKLY" "DESCRIPTION:" (by decide) (by decide)
  simp [eventoLines, List.filter_cons, (by decide : lineStarts "RRULE:FREQ=WEEKLY" "BEGIN:VEVENT" = false),
    l2f,
    l3f,
    l4f,
    l5f,
    l6t,
    l7f,
    l8f,
    l9f,
    (by decide : lineStarts "RRULE:FREQ=WEEKLY" "END:VEVENT" = false)]

theorem ical_filter_rrule (datos : DatosClase) (ahora : Ahora) :
    (icalLines datos ahora).filter (fun l => lineStarts "RRULE:FREQ=WEEKLY" l)
      = (datos.eventos.filter validar_evento).map
          (fun e => "RRULE:FREQ=WEEKLY;WKST=MO;BYDAY=" ++
            (DIAS_RRULE.getD (e.dia.getD 0).toNat "" ++ (";UNTIL=" ++ fechaFinCurso ahora))) := by
  simp only [icalLines, List.filter_append, hdr_filter_rrule, tz_filter_rrule,
    List.filter_flatMap, ev_filter_rrule, flatMap_single_eq_map, List.nil_append,
    List.append_nil,
    (show List.filter (fun l => lineStarts "RRULE:FREQ=WEEKLY" l) ["END:VCALENDAR"] = [] from by decide)]

theorem hdr_filter_dtstart (clase : String) :
    (headerLines clase).filter (fun l => lineStarts "DTSTART;" l) = [] := by
  have h3f := lineStarts_false_of "DTSTART;" "PRODID:" (by decide) (by decide)
  have h6f := lineStarts_false_of "DTSTART;" "X-WR-CALNAME:Clase " (by decide) (by decide)
  simp [headerLines, List.filter_cons, (by decide : lineStarts "DTSTART;" "BEGIN:VCALENDAR" = false),
    (by decide : lineStarts "DTSTART;" "VERSION:2.0" = false),
    h3f,
    (by decide : lineStarts "DTSTART;" "CALSCALE:GREGORIAN" = false),
    (by decide : lineStarts "DTSTART;" "METHOD:PUBLISH" = false),
    h6f]

theorem tz_filter_dtstart :
    timezoneLines.filter (fun l => lineStarts "DTSTART;" l) = [] := by decide

theorem ev_filter_dtstart (clase : String) (fb : Int) (ffc ts : String) (e : Evento) :
    (eventoLines clase fb ffc ts e).filter (fun l => lineStarts "DTSTART;" l)
      = ["DTSTART;TZID=" ++ TIMEZONE ++ ":" ++
        formatear_fecha (fb + (e.dia.getD 0 - 1))
          (HORARIOS.getD ((e.periodo.getD 0).toNat - 1) ⟨"", ""⟩).ini] := by
  have l2t := lineStarts_true_of "DTSTART;" ("DTSTART;TZID=" ++ TIMEZONE ++ ":") (by decide)
  have l3f := lineStarts_false_of "DTSTART;" ("DTEND;TZID=" ++ TIMEZONE ++ ":") (by decide) (by decide)
  have l4f := lineStarts_false_of "DTSTART;" "DTSTAMP:" (by decide) (by decide)
  have l5f := lineStarts_false_of "DTSTART;" "UID:" (by decide) (by decide)
  have l6f := lineStarts_false_of "DTSTART;" "RRULE:FREQ=WEEKLY;WKST=MO;BYDAY=" (by decide) (by decide)
  have l7f := lineStarts_false_of "DTSTART;" "SUMMARY:" (by decide) (by decide)
  have l8f := lineStarts_false_of "DTSTART;" "LOCATION:" (by decide) (by decide)
  have l9f := lineStarts_false_of "DTSTART;" "DESCRIPTION:" (by decide) (by decide)
  simp [eventoLines, List.filter_cons, (by decide : lineStarts "DTSTART;" "BEGIN:VEVENT" = false),
    l2t,
    l3f,
    l4f,
    l5f,
    l6f,
    l7f,
    l8f,
    l9f,
    (by decide : lineStarts "DTSTART;" "END:VEVENT" = false)]

theorem ical_filter_dtstart (datos : DatosClase) (ahora : Ahora) :
    (icalLines datos ahora).filter (fun l => lineStarts "DTSTART;" l)
      = (datos.eventos.filter validar_evento).map
          (fun e => "DTSTART;TZID=" ++ TIMEZONE ++ ":" ++
            formatear_fecha (fechaBase ahora.date + (e.dia.getD 0 - 1))
              (HORARIOS.getD ((e.periodo.getD 0).toNat - 1) ⟨"", ""⟩).ini) := by
  simp only [icalLines, List.filter_append, hdr_filter_dtstart, tz_filter_dtstart,
    List.filter_flatMap, ev_filter_dtstart, flatMap_single_eq_map, List.nil_append,
    List.append_nil,
    (show List.filter (fun l => lineStarts "DTSTART;" l) ["END:VCALENDAR"] = [] from by decide)]

theorem hdr_filter_dtend (clase : String) :
    (headerLines clase).filter (fun l => lineStarts "DTEND;" l) = [] := by
  have h3f := lineStarts_false_of "DTEND;" "PRODID:" (by decide) (by decide)
  have h6f := lineStarts_false_of "DTEND;" "X-WR-CALNAME:Clase " (by decide) (by decide)
  simp [headerLines, List.filter_cons, (by decide : lineStarts "DTEND;" "BEGIN:VCALENDAR" = false),
    (by decide : lineStarts "DTEND;" "VERSION:2.0" = false),
    h3f,
    (by decide : lineStarts "DTEND;" "CALSCALE:GREGORIAN" = false),
    (by decide : lineStarts "DTEND;" "METHOD:PUBLISH" = false),
    h6f]

theorem tz_filter_dtend :
    timezoneLines.filter (fun l => lineStarts "DTEND;" l) = [] := by decide

theorem ev_filter_dtend (clase : String) (fb : Int) (ffc ts : String) (e : Evento) :
    (eventoLines clase fb ffc ts e).filter (fun l => lineStarts "DTEND;" l)
      = ["DTEND;TZID=" ++ TIMEZONE ++ ":" ++
        formatear_fecha (fb + (e.dia.getD 0 - 1))
          (HORARIOS.getD ((e.periodo.getD 0).toNat - 1) ⟨"", ""⟩).fin] := by
  have l2f := lineStarts_false_of "DTEND;" ("DTSTART;TZID=" ++ TIMEZONE ++ ":") (by decide) (by decide)
  have l3t := lineStarts_true_of "DTEND;" ("DTEND;TZID=" ++ TIMEZONE ++ ":") (by decide)
  have l4f := lineStarts_false_of "DTEND;" "DTSTAMP:" (by decide) (by decide)
  have l5f := lineStarts_false_of "DTEND;" "UID:" (by decide) (by decide)
  have l6f := lineStarts_false_of "DTEND;" "RRULE:FREQ=WEEKLY;WKST=MO;BYDAY=" (by decide) (by decide)
  have l7f := lineStarts_false_of "DTEND;" "SUMMARY:" (by decide) (by decide)
  have l8f := lineStarts_false_of "DTEND;" "LOCATION:" (by decide) (by decide)
  have l9f := lineStarts_false_of "DTEND;" "DESCRIPTION:" (by decide) (by decide)
  simp [eventoLines, List.filter_cons, (by decide : lineStarts "DTEND;" "BEGIN:VEVENT" = false),
    l2f,
    l3t,
    l4f,
    l5f,
    l6f,
    l7f,
    l8f,
    l9f,
    (by decide : lineStarts "DTEND;" "END:VEVENT" = false)]

theorem ical_filter_dtend (datos : DatosClase) (ahora : Ahora) :
    (icalLines datos ahora).filter (fun l => lineStarts "DTEND;" l)
      = (datos.eventos.filter validar_evento).map
          (fun e => "DTEND;TZID=" ++ TIMEZONE ++ ":" ++
            formatear_fecha (fechaBase ahora.date + (e.dia.getD 0 - 1))
              (HORARIOS.getD ((e.periodo.getD 0).toNat - 1) ⟨"", ""⟩).fin) := by
  simp only [icalLines, List.filter_append, hdr_filter_dtend, tz_filter_dtend,
    List.filter_flatMap, ev_filter_dtend, flatMap_single_eq_map, List.nil_append,
    List.append_nil,
    (show List.filter (fun l => lineStarts "DTEND;" l) ["END:VCALENDAR"] = [] from by decide)]

theorem hdr_filter_desc (clase : String) :
    (headerLines clase).filter (fun l => lineStarts "DESCRIPTION:" l) = [] := by
  have h3f := lineStarts_false_of "DESCRIPTION:" "PRODID:" (by decide) (by decide)
  have h6f := lineStarts_false_of "DESCRIPTION:" "X-WR-CALNAME:Clase " (by decide) (by decide)
  simp [headerLines, List.filter_cons, (by decide : lineStarts "DESCRIPTION:" "BEGIN:VCALENDAR" = false),
    (by decide : lineStarts "DESCRIPTION:" "VERSION:2.0" = false),
    h3f,
    (by decide : lineStarts "DESCRIPTION:" "CALSCALE:GREGORIAN" = false),
    (by decide : lineStarts "DESCRIPTION:" "METHOD:PUBLISH" = false),
    h6f]

theorem tz_filter_desc :
    timezoneLines.filter (fun l => lineStarts "DESCRIPTION:" l) = [] := by decide

theorem ev_filter_desc (clase : String) (fb : Int) (ffc ts : String) (e : Evento) :
    (eventoLines clase fb ffc ts e).filter (fun l => lineStarts "DESCRIPTION:" l)
      = ["DESCRIPTION:" ++
        (DIAS_SEMANA.getD (e.dia.getD 0).toNat "" ++ (" - Clase " ++ clase))] := by
  have l2f := lineStarts_false_of "DESCRIPTION:" ("DTSTART;TZID=" ++ TIMEZONE ++ ":") (by decide) (by decide)
  have l3f := lineStarts_false_of "DESCRIPTION:" ("DTEND;TZID=" ++ TIMEZONE ++ ":") (by decide) (by decide)
  have l4f := lineStarts_false_of "DESCRIPTION:" "DTSTAMP:" (by decide) (by decide)
  have l5f := lineStarts_false_of "DESCRIPTION:" "UID:" (by decide) (by decide)
  have l6f := lineStarts_false_of "DESCRIPTION:" "RRULE:FREQ=WEEKLY;WKST=MO;BYDAY=" (by decide) (by decide)
  have l7f := lineStarts_false_of "DESCRIPTION:" "SUMMARY:" (by decide) (by decide)
  have l8f := lineStarts_false_of "DESCRIPTION:" "LOCATION:" (by decide) (by decide)
  have l9t := lineStarts_true_of "DESCRIPTION:" "DESCRIPTION:" (by decide)
  simp [eventoLines, List.filter_cons, (by decide : lineStarts "DESCRIPTION:" "BEGIN:VEVENT" = false),
    l2f,
    l3f,
    l4f,
    l5f,
    l6f,
    l7f,
    l8f,
    l9t,
    (by decide : lineStarts "DESCRIPTION:" "END:VEVENT" = false)]

theorem ical_filter_desc (datos : DatosClase) (ahora : Ahora) :
    (icalLines datos ahora).filter (fun l => lineStarts "DESCRIPTION:" l)
      = (datos.eventos.filter validar_evento).map
          (fun e => "DESCRIPTION:" ++
            (DIAS_SEMANA.getD (e.dia.getD 0).toNat "" ++ (" - Clase " ++ claseDe datos))) := by
  simp only [icalLines, List.filter_append, hdr_filter_desc, tz_filter_desc,
    List.filter_flatMap, ev_filter_desc, flatMap_single_eq_map, List.nil_append,
    List.append_nil,
    (show List.filter (fun l => lineStarts "DESCRIPTION:" l) ["END:VCALENDAR"] = [] from by decide)]

theorem hdr_filter_beginv (clase : String) :
    (headerLines clase).filter (fun l => l == "BEGIN:VEVENT") = [] := by
  have h3f := beq_false_of "PRODID:" "BEGIN:VEVENT" (by decide)
  have h6f := beq_false_of "X-WR-CALNAME:Clase " "BEGIN:VEVENT" (by decide)
  simp [headerLines, List.filter_cons, (by decide : ("BEGIN:VCALENDAR" == "BEGIN:VEVENT" : Bool) = false),
    (by decide : ("VERSION:2.0" == "BEGIN:VEVENT" : Bool) = false),
    h3f,
    (by decide : ("CALSCALE:GREGORIAN" == "BEGIN:VEVENT" : Bool) = false),
    (by decide : ("METHOD:PUBLISH" == "BEGIN:VEVENT" : Bool) = false),
    h6f]

theorem tz_filter_beginv :
    timezoneLines.filter (fun l => l == "BEGIN:VEVENT") = [] := by decide

theorem ev_filter_beginv (clase : String) (fb : Int) (ffc ts : String) (e : Evento) :
    (eventoLines clase fb ffc ts e).filter (fun l => l == "BEGIN:VEVENT")
      = ["BEGIN:VEVENT"] := by
  have l2f := beq_false_of ("DTSTART;TZID=" ++ TIMEZONE ++ ":") "BEGIN:VEVENT" (by decide)
  have l3f := beq_false_of ("DTEND;TZID=" ++ TIMEZONE ++ ":") "BEGIN:VEVENT" (by decide)
  have l4f := beq_false_of "DTSTAMP:" "BEGIN:VEVENT" (by decide)
  have l5f := beq_false_of "UID:" "BEGIN:VEVENT" (by decide)
  have l6f := beq_false_of "RRULE:FREQ=WEEKLY;WKST=MO;BYDAY=" "BEGIN:VEVENT" (by decide)
  have l7f := beq_false_of "SUMMARY:" "BEGIN:VEVENT" (by decide)
  have l8f := beq_false_of "LOCATION:" "BEGIN:VEVENT" (by decide)
  have l9f := beq_false_of "DESCRIPTION:" "BEGIN:VEVENT" (by decide)
  simp [eventoLines, List.filter_cons, l2f,
    l3f,
    l4f,
    l5f,
    l6f,
    l7f,
    l8f,
    l9f,
    (by decide : ("END:VEVENT" == "BEGIN:VEVENT" : Bool) = false)]

theorem ical_filter_beginv (datos : DatosClase) (ahora : Ahora) :
    (icalLines datos ahora).filter (fun l => l == "BEGIN:VEVENT")
      = (datos.eventos.filter validar_evento).map
          (fun _ => ("BEGIN:VEVENT" : String)) := by
  simp only [icalLines, List.filter_append, hdr_filter_beginv, tz_filter_beginv,
    List.filter_flatMap, ev_filter_beginv, flatMap_single_eq_map, List.nil_append,
    List.append_nil,
    (show List.filter (fun l => l == "BEGIN:VEVENT") ["END:VCALENDAR"] = [] from by decide)]

theorem hdr_filter_endv (clase : String) :
    (headerLines clase).filter (fun l => l == "END:VEVENT") = [] := by
  have h3f := beq_false_of "PRODID:" "END:VEVENT" (by decide)
  have h6f := beq_false_of "X-WR-CALNAME:Clase " "END:VEVENT" (by decide)
  simp [headerLines, List.filter_cons, (by decide : ("BEGIN:VCALENDAR" == "END:VEVENT" : Bool) = false),
    (by decide : ("VERSION:2.0" == "END:VEVENT" : Bool) = false),
    h3f,
    (by decide : ("CALSCALE:GREGORIAN" == "END:VEVENT" : Bool) = false),
    (by decide : ("METHOD:PUBLISH" == "END:VEVENT" : Bool) = false),
    h6f]

theorem tz_filter_endv :
    timezoneLines.filter (fun l => l == "END:VEVENT") = [] := by decide

theorem ev_filter_endv (clase : String) (fb : Int) (ffc ts : String) (e : Evento) :
    (eventoLines clase fb ffc ts e).filter (fun l => l == "END:VEVENT")
      = ["END:VEVENT"] := by
  have l2f := beq_false_of ("DTSTART;TZID=" ++ TIMEZONE ++ ":") "END:VEVENT" (by decide)
  have l3f := beq_false_of ("DTEND;TZID=" ++ TIMEZONE ++ ":") "END:VEVENT" (by decide)
  have l4f := beq_false_of "DTSTAMP:" "END:VEVENT" (by decide)
  have l5f := beq_false_of "UID:" "END:VEVENT" (by decide)
  have l6f := beq_false_of "RRULE:FREQ=WEEKLY;WKST=MO;BYDAY=" "END:VEVENT" (by decide)
  have l7f := beq_false_of "SUMMARY:" "END:VEVENT" (by decide)
  have l8f := beq_false_of "LOCATION:" "END:VEVENT" (by decide)
  have l9f := beq_false_of "DESCRIPTION:" "END:VEVENT" (by decide)
  simp [eventoLines, List.filter_cons, (by decide : ("BEGIN:VEVENT" == "END:VEVENT" : Bool) = false),
    l2f,
    l3f,
    l4f,
    l5f,
    l6f,
    l7f,
    l8f,
    l9f]

theorem ical_filter_endv (datos : DatosClase) (ahora : Ahora) :
    (icalLines datos ahora).filter (fun l => l == "END:VEVENT")
      = (datos.eventos.filter validar_evento).map
          (fun _ => ("END:VEVENT" : String)) := by
  simp only [icalLines, List.filter_append, hdr_filter_endv, tz_filter_endv,
    List.filter_flatMap, ev_filter_endv, flatMap_single_eq_map, List.nil_append,
    List.append_nil,
    (show List.filter (fun l => l == "END:VEVENT") ["END:VCALENDAR"] = [] from by decide)]

/-- `renderIcal` on a list known to start with `a` and to go on. -/
theorem renderIcal_head' (a : String) (rest ls : List String)
    (h : ls = a :: rest) (h2 : rest ≠ []) : ∃ t, renderIcal ls = a ++ t := by
  subst h
  exact renderIcal_head a rest h2

/-- `icalLines` always ends in the closing `END:VCALENDAR` line. -/
theorem icalLines_decomp (datos : DatosClase) (ahora : Ahora) :
    icalLines datos ahora =
      (headerLines (claseDe datos) ++ timezoneLines ++
        (datos.eventos.filter validar_evento).flatMap
          (eventoLines (claseDe datos) (fechaBase ahora.date) (fechaFinCurso ahora)
            (obtener_timestamp ahora))) ++ ["END:VCALENDAR"] := by
  simp [icalLines, List.append_assoc]

/-! ### Facts about validation and the base date -/

theorem validar_bounds (e : Evento) (h : validar_evento e = true) :
    ∃ d p, e.dia = some d ∧ e.periodo = some p ∧
      1 ≤ d ∧ d ≤ 5 ∧ 1 ≤ p ∧ p ≤ 12 := by
  obtain ⟨ed, ep, ea, er⟩ := e
  have hl : (HORARIOS.length : Int) = 12 := by decide
  cases ed with
  | none => simp [validar_evento] at h
  | some d =>
    cases ep with
    | none => simp [validar_evento] at h
    | some p =>
      cases ea with
      | none => simp [validar_evento] at h
      | some a =>
        cases er with
        | none => simp [validar_evento] at h
        | some r =>
          simp only [validar_evento, Bool.and_eq_true, decide_eq_true_eq] at h
          exact ⟨d, p, rfl, rfl, by omega, by omega, by omega, by omega⟩

theorem fechaBase_next_monday (hoy : Int) :
    hoy < fechaBase hoy ∧ fechaBase hoy ≤ hoy + 7 ∧ weekdayOf (fechaBase hoy) = 0 := by
  refine ⟨?_, ?_, ?_⟩ <;>
    simp only [fechaBase, diasHastaLunes, weekdayOf] <;>
    split_ifs <;> omega

/-- Claim C1: for every schedule record with at least one event that
passes validation, `generar_icalendar` returns a document that begins with
`BEGIN:VCALENDAR`, ends with `END:VCALENDAR` followed by CRLF, is the
concatenation of its lines each terminated by CRLF (so every line,
including the last, ends in CRLF), and has exactly one `BEGIN:VEVENT` and
one `END:VEVENT` line per valid event, its `UID:` lines enumerating the
valid events in their original order; invalid events contribute no
lines. -/
theorem c1_document_structure (datos : DatosClase) (ahora : Ahora)
    (h : datos.eventos.filter validar_evento ≠ []) :
    ∃ s, generar_icalendar (some datos) ahora = some s ∧
      (∃ t, s = "BEGIN:VCALENDAR" ++ t) ∧
      (∃ u, s = u ++ ("END:VCALENDAR" ++ "\r\n")) ∧
      s = ((icalLines datos ahora).map (fun l => l ++ "\r\n")).foldr (fun a b => a ++ b) "" ∧
      ((icalLines datos ahora).filter (fun l => l == "BEGIN:VEVENT")).length
        = (datos.eventos.filter validar_evento).length ∧
      ((icalLines datos ahora).filter (fun l => l == "END:VEVENT")).length
        = (datos.eventos.filter validar_evento).length ∧
      (icalLines datos ahora).filter (fun l => lineStarts "UID:" l)
        = (datos.eventos.filter validar_evento).map
            (fun e => "UID:" ++ uidOf (claseDe datos) (obtener_timestamp ahora) e) := by
  refine ⟨renderIcal (icalLines datos ahora), generar_some datos ahora h,
    ?_, ?_, ?_, ?_, ?_, ical_filter_uid datos ahora⟩
  · exact renderIcal_head' "BEGIN:VCALENDAR" _ (icalLines datos ahora) rfl (by simp)
  · rw [icalLines_decomp]
    exact renderIcal_last _ "END:VCALENDAR"
  · exact renderIcal_foldr _ (by simp [icalLines, headerLines])
  · rw [ical_filter_beginv, List.length_map]
  · rw [ical_filter_endv, List.length_map]

theorem c1_document_structure_witness :
    (DatosClase.mk (some "7d") [Evento.mk (some 1) (some 1) (some "m") (some "A104")]).eventos.filter
        validar_evento ≠ [] ∧
    ∃ s, generar_icalendar
        (some ⟨some "7d", [⟨some 1, some 1, some "m", some "A104"⟩]⟩) ⟨739252, 9, 5, 3⟩
      = some s := by
  refine ⟨by decide, ?_⟩
  obtain ⟨s, hs, -⟩ := c1_document_structure
    ⟨some "7d", [⟨some 1, some 1, some "m", some "A104"⟩]⟩ ⟨739252, 9, 5, 3⟩ (by decide)
  exact ⟨s, hs⟩

/-- Claim C2: the base date is the next Monday strictly after "now"
(`(7 - weekday(now)) mod 7` days ahead, 0 replaced by 7), every valid
event is placed on that Monday plus `dia - 1` days — so the DTSTART date's
weekday (Monday = 1 counting) equals `dia` — and the DTSTART/DTEND lines
take their times exactly from the `HORARIOS` entry `periodo - 1`. -/
theorem c2_base_date_and_slots (datos : DatosClase) (ahora : Ahora) :
    (fechaBase ahora.date = ahora.date +
        (if (7 - weekdayOf ahora.date) % 7 = 0 then 7 else (7 - weekdayOf ahora.date) % 7) ∧
      ahora.date < fechaBase ahora.date ∧
      fechaBase ahora.date ≤ ahora.date + 7 ∧
      weekdayOf (fechaBase ahora.date) = 0) ∧
    (∀ e ∈ datos.eventos.filter validar_evento, ∀ d p : Int,
      e.dia = some d → e.periodo = some p →
      1 ≤ d ∧ d ≤ 5 ∧ 1 ≤ p ∧ p ≤ 12 ∧
      weekdayOf (fechaBase ahora.date + (d - 1)) + 1 = d) ∧
    ((icalLines datos ahora).filter (fun l => lineStarts "DTSTART;" l)
      = (datos.eventos.filter validar_evento).map
          (fun e => "DTSTART;TZID=" ++ TIMEZONE ++ ":" ++
            formatear_fecha (fechaBase ahora.date + (e.dia.getD 0 - 1))
              (HORARIOS.getD ((e.periodo.getD 0).toNat - 1) ⟨"", ""⟩).ini)) ∧
    ((icalLines datos ahora).filter (fun l => lineStarts "DTEND;" l)
      = (datos.eventos.filter validar_evento).map
          (fun e => "DTEND;TZID=" ++ TIMEZONE ++ ":" ++
            formatear_fecha (fechaBase ahora.date + (e.dia.getD 0 - 1))
              (HORARIOS.getD ((e.periodo.getD 0).toNat - 1) ⟨"", ""⟩).fin)) := by
  refine ⟨⟨rfl, fechaBase_next_monday ahora.date⟩,
    ?_, ical_filter_dtstart datos ahora, ical_filter_dtend datos ahora⟩
  intro e he d p hd hp
  obtain ⟨d', p', hd', hp', hb1, hb2, hb3, hb4⟩ :=
    validar_bounds e (List.mem_filter.mp he).2
  rw [hd'] at hd
  rw [hp'] at hp
  injection hd with hd
  injection hp with hp
  subst hd
  subst hp
  have hmon := (fechaBase_next_monday ahora.date).2.2
  refine ⟨hb1, hb2, hb3, hb4, ?_⟩
  simp only [weekdayOf] at hmon ⊢
  omega

theorem c2_base_date_and_slots_witness :
    (Evento.mk (some 1) (some 1) (some "m") (some "A104")
        ∈ (DatosClase.mk (some "7d") [⟨some 1, some 1, some "m", some "A104"⟩]).eventos.filter
            validar_evento) ∧
    weekdayOf (fechaBase 739252 + (1 - 1)) + 1 = 1 := by
  refine ⟨by decide, ?_⟩
  have h := (c2_base_date_and_slots
    ⟨some "7d", [⟨some 1, some 1, some "m", some "A104"⟩]⟩ ⟨739252, 9, 5, 3⟩).2.1
    ⟨some 1, some 1, some "m", some "A104"⟩ (by decide) 1 1 rfl rfl
  exact h.2.2.2.2

/-- Claim C3: `validar_evento` accepts exactly the records with all four
fields present, `1 ≤ dia ≤ 5` and `1 ≤ periodo ≤ 12`; the stated boundary
values behave as claimed and a record missing any required field is
rejected. -/
theorem c3_validation (e : Evento) :
    (validar_evento e = true ↔
      ∃ d p a r, e = ⟨some d, some p, some a, some r⟩ ∧
        1 ≤ d ∧ d ≤ 5 ∧ 1 ≤ p ∧ p ≤ 12) ∧
    validar_evento ⟨some 0, some 1, some "m", some "A104"⟩ = false ∧
    validar_evento ⟨some 6, some 1, some "m", some "A104"⟩ = false ∧
    validar_evento ⟨some 1, some 0, some "m", some "A104"⟩ = false ∧
    validar_evento ⟨some 1, some 13, some "m", some "A104"⟩ = false ∧
    validar_evento ⟨some 1, some 1, some "m", some "A104"⟩ = true ∧
    validar_evento ⟨some 5, some 12, some "m", some "A104"⟩ = true ∧
    (∀ e' : Evento,
      (e'.dia = none ∨ e'.periodo = none ∨ e'.asignatura = none ∨ e'.aula = none) →
      validar_evento e' = false) := by
  refine ⟨?_, by decide, by decide, by decide, by decide, by decide, by decide, ?_⟩
  · constructor
    · intro h
      obtain ⟨d, p, hd, hp, hb1, hb2, hb3, hb4⟩ := validar_bounds e h
      obtain ⟨ed, ep, ea, er⟩ := e
      simp only at hd hp
      subst hd
      subst hp
      cases ea with
      | none => simp [validar_evento] at h
      | some a =>
        cases er with
        | none => simp [validar_evento] at h
        | some r => exact ⟨d, p, a, r, rfl, hb1, hb2, hb3, hb4⟩
    · rintro ⟨d, p, a, r, rfl, hb1, hb2, hb3, hb4⟩
      have hl : (HORARIOS.length : Int) = 12 := by decide
      simp only [validar_evento, Bool.and_eq_true, decide_eq_true_eq]
      omega
  · intro e' hmiss
    obtain ⟨ed, ep, ea, er⟩ := e'
    simp only at hmiss
    rcases hmiss with h | h | h | h
    · subst h
      simp [validar_evento]
    · subst h
      cases ed <;> simp [validar_evento]
    · subst h
      cases ed <;> cases ep <;> simp [validar_evento]
    · subst h
      cases ed <;> cases ep <;> cases ea <;> simp [validar_evento]

theorem c3_validation_witness :
    (Evento.mk none (some 1) (some "m") (some "A104")).dia = none ∧
    validar_evento ⟨none, some 1, some "m", some "A104"⟩ = false :=
  ⟨rfl, (c3_validation ⟨none, some 1, some "m", some "A104"⟩).2.2.2.2.2.2.2
    ⟨none, some 1, some "m", some "A104"⟩ (Or.inl rfl)⟩

/-- Claim C4: `generar_icalendar` yields no document for a missing record,
an empty event list, or when no event survives validation, and yields a
document as soon as one event is valid; the failure is the returned
`none`, the (typed) function being total. -/
theorem c4_failure_semantics (ahora : Ahora) (datos : DatosClase) :
    generar_icalendar none ahora = none ∧
    (datos.eventos = [] → generar_icalendar (some datos) ahora = none) ∧
    (datos.eventos.filter validar_evento = [] →
      generar_icalendar (some datos) ahora = none) ∧
    (datos.eventos.filter validar_evento ≠ [] →
      ∃ s, generar_icalendar (some datos) ahora = some s) := by
  refine ⟨rfl, ?_, ?_, ?_⟩
  · intro h
    simp [generar_icalendar, h]
  · intro h
    by_cases he : datos.eventos = []
    · simp [generar_icalendar, he]
    · simp [generar_icalendar, he, h]
  · intro h
    exact ⟨renderIcal (icalLines datos ahora), generar_some datos ahora h⟩

theorem c4_failure_semantics_witness :
    generar_icalendar (some ⟨some "7d", ([] : List Evento)⟩) ⟨739252, 9, 5, 3⟩ = none ∧
    generar_icalendar (some ⟨some "7d", [⟨some 7, some 1, some "x", some "A"⟩]⟩)
        ⟨739252, 9, 5, 3⟩ = none ∧
    (∃ s, generar_icalendar
        (some ⟨some "7d", [⟨some 1, some 1, some "m", some "A104"⟩]⟩) ⟨739252, 9, 5, 3⟩
      = some s) :=
  ⟨(c4_failure_semantics ⟨739252, 9, 5, 3⟩ ⟨some "7d", []⟩).2.1 rfl,
   (c4_failure_semantics ⟨739252, 9, 5, 3⟩ ⟨some "7d", [⟨some 7, some 1, some "x", some "A"⟩]⟩).2.2.1
     (by decide),
   (c4_failure_semantics ⟨739252, 9, 5, 3⟩
     ⟨some "7d", [⟨some 1, some 1, some "m", some "A104"⟩]⟩).2.2.2 (by decide)⟩

/-! ### Injectivity of the UID scheme in (dia, periodo) -/

theorem uidOf_inj (clase ts : String) (e1 e2 : Evento)
    (h1 : validar_evento e1 = true) (h2 : validar_evento e2 = true)
    (hne : (e1.dia, e1.periodo) ≠ (e2.dia, e2.periodo)) :
    ("UID:" ++ uidOf clase ts e1) ≠ ("UID:" ++ uidOf clase ts e2) := by
  obtain ⟨d1, p1, hd1, hp1, hb11, hb12, hb13, hb14⟩ := validar_bounds e1 h1
  obtain ⟨d2, p2, hd2, hp2, hb21, hb22, hb23, hb24⟩ := validar_bounds e2 h2
  intro hc
  apply hne
  rw [hd1, hp1, hd2, hp2]
  have hdata := congrArg String.data hc
  simp only [uidOf, hd1, hp1, hd2, hp2, Option.getD_some, String.data_append] at hdata
  replace hdata := List.append_cancel_left hdata
  replace hdata := List.append_cancel_left hdata
  replace hdata := List.append_cancel_left hdata
  replace hdata := List.append_cancel_left hdata
  rw [pyStrInt_digit d1 (by omega) (by omega), pyStrInt_digit d2 (by omega) (by omega)]
    at hdata
  simp only [List.cons_append, List.nil_append, List.cons.injEq, true_and] at hdata
  obtain ⟨hchar, hrest⟩ := hdata
  have hd : d1 = d2 := by
    have := digitChar_inj d1.toNat (by omega) d2.toNat (by omega) hchar
    omega
  replace hrest := List.append_cancel_right hrest
  rw [pyStrInt_nonneg p1 (by omega), pyStrInt_nonneg p2 (by omega)] at hrest
  have hp : p1 = p2 := by
    have := pyDigits_inj13 p1.toNat (by omega) p2.toNat (by omega) hrest
    omega
  rw [hd, hp]

/-- Claim C5 counterexample: a schedule containing the same event twice is
accepted, both copies are emitted, and their UID lines coincide, so the
UIDs of one generated document are not pairwise distinct. -/
theorem c5_counterexample :
    ¬ ((icalLines
        ⟨some "7d", [⟨some 1, some 1, some "m", some "A104"⟩,
          ⟨some 1, some 1, some "m", some "A104"⟩]⟩
        ⟨739252, 9, 5, 3⟩).filter (fun l => lineStarts "UID:" l)).Nodup := by decide

/-- Claim C5 (amended): within one generated document the UID lines are
pairwise distinct provided the valid events carry pairwise distinct
(dia, periodo) pairs; two valid events sharing day and period — e.g.
duplicate events, which are permitted — receive identical UIDs. -/
theorem c5_uids_distinct (datos : DatosClase) (ahora : Ahora)
    (h : ((datos.eventos.filter validar_evento).map
      (fun e => (e.dia, e.periodo))).Nodup) :
    ((icalLines datos ahora).filter (fun l => lineStarts "UID:" l)).Nodup := by
  rw [ical_filter_uid]
  have hp : (datos.eventos.filter validar_evento).Pairwise
      (fun e1 e2 => (e1.dia, e1.periodo) ≠ (e2.dia, e2.periodo)) :=
    List.pairwise_map.mp h
  show (List.map _ _).Pairwise _
  refine List.pairwise_map.mpr ?_
  refine List.Pairwise.imp_of_mem ?_ hp
  intro e1 e2 he1 he2 hne
  exact uidOf_inj (claseDe datos) (obtener_timestamp ahora) e1 e2
    (List.mem_filter.mp he1).2 (List.mem_filter.mp he2).2 hne

theorem c5_uids_distinct_witness :
    (((DatosClase.mk (some "7d")
        [⟨some 1, some 1, some "m", some "A104"⟩,
         ⟨some 2, some 3, some "d", some "B01"⟩]).eventos.filter
          validar_evento).map (fun e => (e.dia, e.periodo))).Nodup ∧
    ((icalLines ⟨some "7d", [⟨some 1, some 1, some "m", some "A104"⟩,
        ⟨some 2, some 3, some "d", some "B01"⟩]⟩ ⟨739252, 9, 5, 3⟩).filter
      (fun l => lineStarts "UID:" l)).Nodup :=
  ⟨by decide, c5_uids_distinct _ _ (by decide)⟩

/-- Claim C6: the subject resolver is the split-on-'/', resolve-each-part,
rejoin-with-'/' pipeline (a total function); a part that is no key of
`ASIGNATURAS` passes through verbatim, so a string none of whose parts
match resolves to itself, and the unknown abbreviation "xyz" resolves to
the literal "xyz". -/
theorem c6_subject_resolution (s : String) :
    nombreAsignatura s = pyJoin "/" ((pySplit '/' s).map resolvePart) ∧
    ((∀ p ∈ pySplit '/' s, ASIGNATURAS.find? (fun kv => kv.1 == p) = none) →
      nombreAsignatura s = s) ∧
    nombreAsignatura "xyz" = "xyz" := by
  refine ⟨rfl, ?_, by decide⟩
  intro hnone
  have hid : (pySplit '/' s).map resolvePart = pySplit '/' s := by
    have h2 : ∀ p ∈ pySplit '/' s, resolvePart p = p := by
      intro p hp
      simp [resolvePart, hnone p hp]
    calc (pySplit '/' s).map resolvePart = (pySplit '/' s).map id :=
          List.map_congr_left h2
      _ = pySplit '/' s := List.map_id _
  rw [nombreAsignatura, hid, pyJoin_pySplit]

theorem c6_subject_resolution_witness :
    (∀ p ∈ pySplit '/' "foo/bar", ASIGNATURAS.find? (fun kv => kv.1 == p) = none) ∧
    nombreAsignatura "foo/bar" = "foo/bar" :=
  ⟨by decide, (c6_subject_resolution "foo/bar").2.1 (by decide)⟩

/-- Claim C7 counterexample: on a record whose `dia` is the string `"x"`
(all four fields present), the chained comparison `1 <= dia <= 5` raises
`TypeError`, so `validar_evento` does not return a verdict there. -/
theorem c7_counterexample :
    validar_evento_raw
        ⟨some (PyVal.str "x"), some (PyVal.int 1), some (PyVal.str "m"),
          some (PyVal.str "A104")⟩
      = Except.error PyErr.typeError := rfl

/-- Claim C7 (amended): `validar_evento` returns a valid/invalid verdict
without raising for every record whose `dia` and `periodo` values, when
present, are integers; with all four fields present it instead raises
`TypeError` when `dia` is a string, or when `dia` is an in-range integer
and `periodo` is a string. -/
theorem c7_no_exception (e : EventoRaw)
    (hd : ∀ v, e.dia = some v → ∃ n, v = PyVal.int n)
    (hp : ∀ v, e.periodo = some v → ∃ n, v = PyVal.int n) :
    ∃ b, validar_evento_raw e = Except.ok b := by
  obtain ⟨ed, ep, ea, er⟩ := e
  cases ed with
  | none => exact ⟨false, rfl⟩
  | some vd =>
    cases ep with
    | none => exact ⟨false, rfl⟩
    | some vp =>
      cases ea with
      | none => exact ⟨false, rfl⟩
      | some va =>
        cases er with
        | none => exact ⟨false, rfl⟩
        | some vr =>
          obtain ⟨nd, rfl⟩ := hd vd rfl
          obtain ⟨np, rfl⟩ := hp vp rfl
          have hred : validar_evento_raw
              ⟨some (PyVal.int nd), some (PyVal.int np), some va, some vr⟩
            = (if !(decide (1 ≤ nd) && decide (nd ≤ 5)) then Except.ok false
               else if !(decide (1 ≤ np) && decide (np ≤ (HORARIOS.length : Int)))
                 then Except.ok false
               else Except.ok true) := rfl
          rw [hred]
          split_ifs with hi1 hi2
          · exact ⟨false, rfl⟩
          · exact ⟨false, rfl⟩
          · exact ⟨true, rfl⟩

theorem c7_no_exception_witness :
    (∀ v, (some (PyVal.int 3) = some v) → ∃ n, v = PyVal.int n) ∧
    ∃ b, validar_evento_raw
        ⟨some (PyVal.int 3), some (PyVal.int 20), some (PyVal.str "m"), none⟩
      = Except.ok b :=
  ⟨fun v hv => by cases hv; exact ⟨3, rfl⟩,
   c7_no_exception ⟨some (PyVal.int 3), some (PyVal.int 20), some (PyVal.str "m"), none⟩
     (fun v hv => by cases hv; exact ⟨3, rfl⟩)
     (fun v hv => by cases hv; exact ⟨20, rfl⟩)⟩

/-- Claim C8 counterexample: for a date in year 1 (ordinal 1) the result
has 12 characters, not 15 — the year is written without zero padding. -/
theorem c8_counterexample : (formatear_fecha 1 "08:10").length ≠ 15 := by decide

/-- Claim C8 (amended): `formatear_fecha` emits the year without padding
followed by zero-padded month, day, hour and minute and the literal
seconds "00"; for dates whose year has four digits (1000–9999) — e.g.
every date reachable from a contemporary clock — the result is exactly 15
characters. -/
theorem c8_formatear_fecha (fecha : Int) (hora : String)
    (hy1 : 1000 ≤ yearOf fecha) (hy2 : yearOf fecha ≤ 9999)
    (hh : (parseHora hora).1 < 100) (hm : (parseHora hora).2 < 100) :
    formatear_fecha fecha hora
      = pyStr (yearOf fecha) ++ pad2 (monthOf fecha) ++ pad2 (dayOf fecha) ++ "T" ++
        pad2 (parseHora hora).1 ++ pad2 (parseHora hora).2 ++ "00" ∧
    (formatear_fecha fecha hora).length = 15 := by
  refine ⟨rfl, ?_⟩
  show (pyStr (yearOf fecha) ++ pad2 (monthOf fecha) ++ pad2 (dayOf fecha) ++ "T" ++
    pad2 (parseHora hora).1 ++ pad2 (parseHora hora).2 ++ "00").length = 15
  rw [String.length_append, String.length_append, String.length_append,
    String.length_append, String.length_append, String.length_append]
  rw [pyStr_len4 _ hy1 hy2,
    pad2_length _ (by have := monthOf_bounds fecha; omega),
    pad2_length _ (by have := dayOf_bounds fecha; omega),
    pad2_length _ hh, pad2_length _ hm]
  decide

theorem c8_formatear_fecha_witness :
    1000 ≤ yearOf 739252 ∧ yearOf 739252 ≤ 9999 ∧
    (parseHora "08:10").1 < 100 ∧ (parseHora "08:10").2 < 100 ∧
    (formatear_fecha 739252 "08:10").length = 15 :=
  ⟨by decide, by decide, by decide, by decide,
   (c8_formatear_fecha 739252 "08:10" (by decide) (by decide) (by decide) (by decide)).2⟩

/-- Claim C9: every VEVENT block of one document carries the identical
`DTSTAMP` line and the identical `UNTIL` bound: the DTSTAMP lines of the
document are one per valid event, all equal to the single timestamp, and
the weekly RRULE lines all end in the single course-end bound. -/
theorem c9_shared_stamp_until (datos : DatosClase) (ahora : Ahora) :
    ((icalLines datos ahora).filter (fun l => lineStarts "DTSTAMP:" l)
      = (datos.eventos.filter validar_evento).map
          (fun _ => "DTSTAMP:" ++ obtener_timestamp ahora)) ∧
    ((icalLines datos ahora).filter (fun l => lineStarts "RRULE:FREQ=WEEKLY" l)
      = (datos.eventos.filter validar_evento).map
          (fun e => "RRULE:FREQ=WEEKLY;WKST=MO;BYDAY=" ++
            (DIAS_RRULE.getD (e.dia.getD 0).toNat "" ++
              (";UNTIL=" ++ fechaFinCurso ahora)))) :=
  ⟨ical_filter_stamp datos ahora, ical_filter_rrule datos ahora⟩

/-- Claim C10: when the record lacks the "clase" key, generation succeeds
(given one valid event) and the default identifier "Unknown" is
substituted into the PRODID line, the calendar display-name line, every
UID line and every DESCRIPTION line. -/
theorem c10_unknown_class (datos : DatosClase) (ahora : Ahora)
    (h : datos.clase = none) (h2 : datos.eventos.filter validar_evento ≠ []) :
    ∃ s, generar_icalendar (some datos) ahora = some s ∧
      ("PRODID:" ++ (PRODID_PREFIX ++ (" " ++ ("Unknown" ++ "//ES")))) ∈ icalLines datos ahora ∧
      ("X-WR-CALNAME:Clase " ++ "Unknown") ∈ icalLines datos ahora ∧
      ((icalLines datos ahora).filter (fun l => lineStarts "UID:" l)
        = (datos.eventos.filter validar_evento).map
            (fun e => "UID:" ++ uidOf "Unknown" (obtener_timestamp ahora) e)) ∧
      ((icalLines datos ahora).filter (fun l => lineStarts "DESCRIPTION:" l)
        = (datos.eventos.filter validar_evento).map
            (fun e => "DESCRIPTION:" ++
              (DIAS_SEMANA.getD (e.dia.getD 0).toNat "" ++ (" - Clase " ++ "Unknown")))) := by
  have hcl : claseDe datos = "Unknown" := by rw [claseDe, h]; rfl
  refine ⟨renderIcal (icalLines datos ahora), generar_some datos ahora h2, ?_, ?_, ?_, ?_⟩
  · simp [icalLines, headerLines, hcl]
  · simp [icalLines, headerLines, hcl]
  · rw [ical_filter_uid, hcl]
  · rw [ical_filter_desc, hcl]

theorem c10_unknown_class_witness :
    (DatosClase.mk none [⟨some 1, some 1, some "m", some "A104"⟩]).clase = none ∧
    ∃ s, generar_icalendar
        (some ⟨none, [⟨some 1, some 1, some "m", some "A104"⟩]⟩) ⟨739252, 9, 5, 3⟩
      = some s := by
  refine ⟨rfl, ?_⟩
  obtain ⟨s, hs, -⟩ := c10_unknown_class
    ⟨none, [⟨some 1, some 1, some "m", some "A104"⟩]⟩ ⟨739252, 9, 5, 3⟩ rfl (by decide)
  exact ⟨s, hs⟩
